import Mathlib

/-!
Verification of the key-value facade service in `Module_01/v1/app.py`.

The service exposes four HTTP handlers over a redis store:
`hello` (GET /), `health` (GET /health), `keys` (GET and POST /keys)
and `get_key` (GET /key/<key_name>).

The redis store is modelled as an association list from string keys to
string values (the client is created with `decode_responses=True`, so all
values observed by the service are strings).  Each handler is embedded as
a function from its request data and the current store to a triple of the
HTTP response produced, the store after the request, and the list of
store operations the handler issued, in order.
-/

set_option autoImplicit false

namespace App

/-- A JSON value, as produced by Flask's `jsonify` (only the shapes this
service emits: strings, null, arrays and objects). -/
inductive Json where
  | str : String → Json
  | null : Json
  | arr : List Json → Json
  | obj : List (String × Json) → Json

/-- An HTTP response: status code and JSON-encodable body.  Flask's
`jsonify` and a plain returned string both produce status 200. -/
structure Response where
  status : Nat
  body : Json

/-- The redis store state: an association list of key/value pairs with
distinct keys (a key maps to at most one value). -/
def Store := List (String × String)

/-- The empty store. -/
def Store.empty : Store := []

/-- `redis_client.set(key, value)`: overwrite the binding of `key` if it
exists, otherwise add a new binding. -/
def redis_set (key value : String) : Store → Store
  | [] => [(key, value)]
  | (k, v) :: rest =>
      if k = key then (key, value) :: rest else (k, v) :: redis_set key value rest

/-- `redis_client.get(key)`: the value bound to `key`, or `None` when the
key is absent. -/
def redis_get (key : String) : Store → Option String
  | [] => none
  | (k, v) :: rest => if k = key then some v else redis_get key rest

/-- Redis glob-style pattern matching on the character lists: `*` matches
any sequence of characters, `?` matches any single character, every other
character matches itself. -/
def globMatchAux : List Char → List Char → Bool
  | [], [] => true
  | [], _ :: _ => false
  | '*' :: ps, [] => globMatchAux ps []
  | '*' :: ps, c :: cs => globMatchAux ps (c :: cs) || globMatchAux ('*' :: ps) cs
  | '?' :: ps, _ :: cs => globMatchAux ps cs
  | _ :: _, [] => false
  | p :: ps, c :: cs => decide (p = c) && globMatchAux ps cs
termination_by p s => (p.length, s.length)

/-- Redis glob-style pattern matching on strings. -/
def globMatch (pattern s : String) : Bool :=
  globMatchAux pattern.toList s.toList

/-- `redis_client.keys(pattern)`: the keys of the store whose name matches
the glob pattern. -/
def redis_keys (pattern : String) (st : Store) : List String :=
  (st.map Prod.fst).filter (fun k => globMatch pattern k)

/-- HTTP method of a request to `/keys`. -/
inductive Method where
  | GET : Method
  | POST : Method
deriving Repr, DecidableEq

/-- A store operation issued by a handler, in the order issued. -/
inductive StoreOp where
  | set : String → String → StoreOp
  | get : String → StoreOp
  | keys : String → StoreOp
deriving Repr, DecidableEq

/-- The JSON body of a POST to `/keys`, after `data.get('key')` and
`data.get('value')`: each field is either absent/null (`none`) or a
string. -/
structure KeysBody where
  key : Option String
  value : Option String
deriving Repr, DecidableEq

/-- Python truthiness of `data.get(...)`: `None` and the empty string are
falsy, every other string is truthy. -/
def truthy : Option String → Bool
  | none => false
  | some s => decide (s ≠ "")

/-- Encode an optional string the way `jsonify` encodes `None` / `str`. -/
def optJson : Option String → Json
  | none => Json.null
  | some s => Json.str s

/-- The result of handling one request: response, store after the
request, and the trace of store operations issued. -/
def HandlerResult := Response × Store × List StoreOp

/-- Handler for `GET /` (`hello`): returns a fixed HTML fragment and
touches nothing. -/
def hello (st : Store) : HandlerResult :=
  (⟨200, Json.str "<h1>مرحباً بك في مقرر مادة الحوسبة السحابية</h1>"⟩, st, [])

/-- Handler for `GET /health` (`health`): returns the constant status
payload and touches nothing. -/
def health (st : Store) : HandlerResult :=
  (⟨200, Json.obj [("status", Json.str "healthy"), ("service", Json.str "flask-app")]⟩,
   st, [])

/-- The shared fall-through branch of the `keys` handler: list all keys
with the match-all pattern. -/
def listKeys (st : Store) : HandlerResult :=
  (⟨200, Json.obj [("keys", Json.arr ((redis_keys "*" st).map Json.str))]⟩,
   st, [StoreOp.keys "*"])

/-- Handler for `/keys` (`keys`).  On POST with truthy `key` and `value`
it issues one SET and returns the success message; otherwise (GET, or
POST with a falsy field) it falls through to listing all keys. -/
def keys (method : Method) (body : KeysBody) (st : Store) : HandlerResult :=
  match method with
  | Method.POST =>
      if truthy body.key && truthy body.value then
        let k := body.key.getD ""
        let v := body.value.getD ""
        (⟨200, Json.obj [("message", Json.str ("Key " ++ k ++ " set successfully"))]⟩,
         redis_set k v st, [StoreOp.set k v])
      else
        listKeys st
  | Method.GET => listKeys st

/-- Handler for `GET /key/<key_name>` (`get_key`): one GET to the store,
response carries the key and its (possibly null) value. -/
def get_key (key_name : String) (st : Store) : HandlerResult :=
  (⟨200, Json.obj [("key", Json.str key_name), ("value", optJson (redis_get key_name st))]⟩,
   st, [StoreOp.get key_name])

/-! ### Store lemmas -/

theorem redis_get_set_self (key value : String) (st : Store) :
    redis_get key (redis_set key value st) = some value := by
  induction st with
  | nil => simp [redis_set, redis_get]
  | cons hd tl ih =>
      obtain ⟨k, v⟩ := hd
      by_cases h : k = key
      · simp [redis_set, redis_get, h]
      · simp [redis_set, redis_get, h, ih]

theorem mem_keys_set_self (key value : String) (st : Store) :
    key ∈ (redis_set key value st).map Prod.fst := by
  induction st with
  | nil => simp [redis_set]
  | cons hd tl ih =>
      obtain ⟨k, v⟩ := hd
      simp only [redis_set]
      by_cases h : k = key
      · rw [if_pos h]
        simp
      · rw [if_neg h]
        simp only [List.map_cons, List.mem_cons]
        exact Or.inr ih

theorem mem_keys_set_of_mem (key value k : String) (st : Store)
    (h : k ∈ st.map Prod.fst) : k ∈ (redis_set key value st).map Prod.fst := by
  induction st with
  | nil => simp at h
  | cons hd tl ih =>
      obtain ⟨k', v'⟩ := hd
      simp only [List.map_cons, List.mem_cons] at h
      simp only [redis_set]
      by_cases hk : k' = key
      · rw [if_pos hk]
        simp only [List.map_cons, List.mem_cons]
        rcases h with h | h
        · left
          rw [h]
          exact hk
        · right
          exact h
      · rw [if_neg hk]
        simp only [List.map_cons, List.mem_cons]
        rcases h with h | h
        · left
          exact h
        · right
          exact ih h

theorem globMatchAux_star (cs : List Char) : globMatchAux ['*'] cs = true := by
  induction cs with
  | nil => simp [globMatchAux]
  | cons c cs ih => simp [globMatchAux, ih]

theorem globMatch_star (s : String) : globMatch "*" s = true :=
  globMatchAux_star s.toList

theorem redis_keys_star (st : Store) : redis_keys "*" st = st.map Prod.fst := by
  unfold redis_keys
  rw [List.filter_eq_self]
  intro k _
  exact globMatch_star k

/-! ### Claims -/

/-- C1: for every pair of non-empty strings key and value, a POST to
/keys with that body followed by GET /key/<key> on the resulting store
returns a response whose value field equals the original value. -/
theorem C1_set_then_get_roundtrip (k v : String) (st : Store)
    (hk : k ≠ "") (hv : v ≠ "") :
    (get_key k (keys Method.POST ⟨some k, some v⟩ st).2.1).1.body =
      Json.obj [("key", Json.str k), ("value", Json.str v)] := by
  simp [keys, truthy, hk, hv, get_key, optJson, redis_get_set_self]

theorem C1_witness :
    (get_key "a" (keys Method.POST ⟨some "a", some "b"⟩ Store.empty).2.1).1.body =
      Json.obj [("key", Json.str "a"), ("value", Json.str "b")] :=
  C1_set_then_get_roundtrip "a" "b" Store.empty (by decide) (by decide)

/-- C2 counterexample: a POST to /keys with the value field missing does
not return a 4xx status; the handler falls through to the key listing
and answers with status 200. -/
theorem C2_counterexample :
    ¬ (400 ≤ (keys Method.POST ⟨some "a", none⟩ Store.empty).1.status ∧
        (keys Method.POST ⟨some "a", none⟩ Store.empty).1.status < 500) := by
  decide

/-- C2 (amended): for every POST to /keys whose JSON body is missing the
value field, the handler does not crash and deterministically returns a
200 response carrying the current key listing; no 4xx is produced. -/
theorem C2_missing_value_lists_keys (body : KeysBody) (st : Store)
    (h : body.value = none) :
    keys Method.POST body st =
      (⟨200, Json.obj [("keys", Json.arr ((redis_keys "*" st).map Json.str))]⟩, st,
        [StoreOp.keys "*"]) := by
  simp [keys, truthy, h, listKeys]

theorem C2_missing_value_witness :
    keys Method.POST ⟨some "a", none⟩ Store.empty =
      (⟨200, Json.obj [("keys", Json.arr ((redis_keys "*" Store.empty).map Json.str))]⟩,
        Store.empty, [StoreOp.keys "*"]) :=
  C2_missing_value_lists_keys ⟨some "a", none⟩ Store.empty rfl

/-- C3: for every key absent from the store, GET /key/<key> returns a 200
response whose body pairs the key with a null value, and the store is
unchanged; absence is never signalled through the status code. -/
theorem C3_get_missing_key (k : String) (st : Store)
    (h : redis_get k st = none) :
    (get_key k st).1.status = 200 ∧
      (get_key k st).1.body = Json.obj [("key", Json.str k), ("value", Json.null)] ∧
      (get_key k st).2.1 = st := by
  refine ⟨rfl, ?_, rfl⟩
  simp [get_key, h, optJson]

theorem C3_witness :
    (get_key "missing" Store.empty).1.status = 200 ∧
      (get_key "missing" Store.empty).1.body =
        Json.obj [("key", Json.str "missing"), ("value", Json.null)] ∧
      (get_key "missing" Store.empty).2.1 = Store.empty :=
  C3_get_missing_key "missing" Store.empty rfl

/-- C4: the health handler returns exactly the constant payload with
fields status = healthy and service = flask-app, for every store state,
leaves the store unchanged and issues no store operation. -/
theorem C4_health_constant (st : Store) :
    health st =
      (⟨200, Json.obj [("status", Json.str "healthy"), ("service", Json.str "flask-app")]⟩,
        st, []) := rfl

/-- C5: for every POST to /keys with non-empty string fields key and
value, the handler issues exactly one SET of that pair (so the new store
is the old one with that single binding updated) and returns the success
message with the key interpolated. -/
theorem C5_set_success (k v : String) (st : Store) (hk : k ≠ "") (hv : v ≠ "") :
    keys Method.POST ⟨some k, some v⟩ st =
      (⟨200, Json.obj [("message", Json.str ("Key " ++ k ++ " set successfully"))]⟩,
        redis_set k v st, [StoreOp.set k v]) := by
  simp [keys, truthy, hk, hv]

theorem C5_witness :
    keys Method.POST ⟨some "a", some "b"⟩ Store.empty =
      (⟨200, Json.obj [("message", Json.str "Key a set successfully")]⟩,
        [("a", "b")], [StoreOp.set "a" "b"]) :=
  C5_set_success "a" "b" Store.empty (by decide) (by decide)

/-- C6: a GET to /keys issues a single KEYS query with the match-all
pattern, leaves the store unchanged, and returns the resulting key
sequence unchanged as the keys field of the JSON payload; the match-all
pattern selects every key of the store. -/
theorem C6_list_keys (body : KeysBody) (st : Store) :
    keys Method.GET body st =
      (⟨200, Json.obj [("keys", Json.arr ((redis_keys "*" st).map Json.str))]⟩, st,
        [StoreOp.keys "*"]) ∧
      redis_keys "*" st = st.map Prod.fst :=
  ⟨rfl, redis_keys_star st⟩

/-- The store reached from `st` after the two successful SetKey requests
of claim C7, for keys `a` and `b` with values `va` and `vb`. -/
def afterTwoSets (a va b vb : String) (st : Store) : Store :=
  (keys Method.POST ⟨some b, some vb⟩
    ((keys Method.POST ⟨some a, some va⟩ st).2.1)).2.1

/-- C7: after two successful SetKey requests for distinct keys a and b,
the ListKeys response carries the store's key listing and that listing
contains at least both a and b. -/
theorem C7_list_contains_both (a b va vb : String) (st : Store)
    (_hab : a ≠ b) (ha : a ≠ "") (hva : va ≠ "") (hb : b ≠ "") (hvb : vb ≠ "") :
    a ∈ redis_keys "*" (afterTwoSets a va b vb st) ∧
      b ∈ redis_keys "*" (afterTwoSets a va b vb st) ∧
      (keys Method.GET ⟨none, none⟩ (afterTwoSets a va b vb st)).1.body =
        Json.obj [("keys",
          Json.arr ((redis_keys "*" (afterTwoSets a va b vb st)).map Json.str))] := by
  have hst : afterTwoSets a va b vb st = redis_set b vb (redis_set a va st) := by
    simp [afterTwoSets, keys, truthy, ha, hva, hb, hvb]
  refine ⟨?_, ?_, rfl⟩
  · rw [hst, redis_keys_star]
    exact mem_keys_set_of_mem b vb a (redis_set a va st) (mem_keys_set_self a va st)
  · rw [hst, redis_keys_star]
    exact mem_keys_set_self b vb (redis_set a va st)

theorem C7_witness :
    "a" ∈ redis_keys "*" (afterTwoSets "a" "1" "b" "2" Store.empty) ∧
      "b" ∈ redis_keys "*" (afterTwoSets "a" "1" "b" "2" Store.empty) ∧
      (keys Method.GET ⟨none, none⟩ (afterTwoSets "a" "1" "b" "2" Store.empty)).1.body =
        Json.obj [("keys",
          Json.arr ((redis_keys "*" (afterTwoSets "a" "1" "b" "2" Store.empty)).map
            Json.str))] :=
  C7_list_contains_both "a" "b" "1" "2" Store.empty
    (by decide) (by decide) (by decide) (by decide) (by decide)

/-- C8: the greeting handler returns the same fixed HTML fragment on
every invocation, leaves the store exactly as it was, and issues no
store operation. -/
theorem C8_hello_pure (st : Store) :
    hello st =
      (⟨200, Json.str "<h1>مرحباً بك في مقرر مادة الحوسبة السحابية</h1>"⟩, st, []) := rfl

/-- C9: for every POST to /keys in which key or value is missing, null,
or the empty string, the handler performs no SET, falls through to the
listing branch, and returns a 200 response carrying the keys field with
all keys currently in the store; the store is unchanged. -/
theorem C9_falsy_fields_fall_through (body : KeysBody) (st : Store)
    (h : body.key = none ∨ body.key = some "" ∨
      body.value = none ∨ body.value = some "") :
    keys Method.POST body st =
      (⟨200, Json.obj [("keys", Json.arr ((redis_keys "*" st).map Json.str))]⟩, st,
        [StoreOp.keys "*"]) ∧
      redis_keys "*" st = st.map Prod.fst := by
  have hcond : (truthy body.key && truthy body.value) = false := by
    rcases h with h | h | h | h <;> simp [truthy, h]
  refine ⟨?_, redis_keys_star st⟩
  simp [keys, hcond, listKeys]

theorem C9_witness :
    keys Method.POST ⟨some "", some "x"⟩ [("k", "v")] =
      (⟨200, Json.obj [("keys", Json.arr ((redis_keys "*" [("k", "v")]).map Json.str))]⟩,
        [("k", "v")], [StoreOp.keys "*"]) ∧
      redis_keys "*" [("k", "v")] = [("k", "v")].map Prod.fst :=
  C9_falsy_fields_fall_through ⟨some "", some "x"⟩ [("k", "v")] (Or.inr (Or.inl rfl))

/-- C10: the get_key handler never modifies the store: it issues only a
single GET to the store, the store after the request is the one before
it, and every key is bound to the same value afterwards. -/
theorem C10_get_key_pure (k : String) (st : Store) :
    (get_key k st).2.1 = st ∧ (get_key k st).2.2 = [StoreOp.get k] ∧
      ∀ k2, redis_get k2 (get_key k st).2.1 = redis_get k2 st :=
  ⟨rfl, rfl, fun _ => rfl⟩

end App
